import Mathlib

/-!
Shallow embedding of the dependent-test orchestration engine of
`cloud-machine-testing`: the `FormatTestOutput` section/check runner with its
bypass protocol (`FormatTestOutput.js`), the `TestError` failure type
(`TestError.js`), and the readiness pollers of `TestMachine`
(`TestMachine.js`, `ensureStarted` / `ensureServiceStarted`).

JavaScript errors are discriminated by the engine purely through their `name`
string and (for bypasses) their `code` field, so an error is embedded as a
record of those observable fields plus a `detail` string standing for
`err.stack ? err.stack : err` (the text the engine prints for the error).

The engine mutates a single instance field `this.indentation` and writes
lines to the console; promise bodies may do the same and either resolve or
reject.  This is embedded by explicit state passing: a state record carries
the indentation counter, the ordered list of console lines written so far and
the ordered list of events emitted via `this.emit("error", err)`, and a test
body is a function from states to a state paired with `Except JsError Unit`
(the promise outcome; per the documented contract a body returns a promise,
and a failing body is a rejecting promise).
-/

namespace CloudMachineTesting

/-- Observable fields of a JavaScript error as the engine inspects them:
`name` (the dynamic-dispatch tag, e.g. `"AssertionError"`, `"Bypass"`,
`"TestError"`), `detail` (what gets printed: `err.stack ? err.stack : err`),
`code` (set only by the `Bypass` constructor; `none` models `undefined`), and
`exitCode` (set only by the `TestError` constructor). -/
structure JsError where
  name : String
  detail : String
  code : Option String := none
  exitCode : Option Nat := none
  deriving DecidableEq, Repr

/-- The `Bypass` error class: `super("Bypass for " + code); this.code = code;
this.name = "Bypass"`. -/
def Bypass (code : String) : JsError :=
  { name := "Bypass", detail := "Bypass for " ++ code, code := some code }

/-- The `TestError` class (`TestError.js`): `this.message = msg;
this.exitCode = exitCode || 1; this.name = "TestError"`.  The pollers call it
with no explicit exit code, so the default `1` applies. -/
def TestError (msg : String) : JsError :=
  { name := "TestError", detail := msg, exitCode := some 1 }

/-- Mutable state of one `FormatTestOutput` instance plus its observable
output: the `indentation` field, the console lines written so far (in order),
and the errors emitted through `this.emit("error", err)`. -/
structure OutState where
  indentation : Nat
  log : List String
  emitted : List JsError
  deriving DecidableEq, Repr

/-- Append one console line (`console.log` / `console.warn` /
`console.error`). -/
def logLine (s : OutState) (msg : String) : OutState :=
  { s with log := s.log ++ [msg] }

/-- Record one `this.emit("error", err)` event. -/
def emit (s : OutState) (e : JsError) : OutState :=
  { s with emitted := s.emitted ++ [e] }

/-- `new Array(n + 1).join("  ")`: the two-space indentation string repeated
`n` times. -/
def indentOf (n : Nat) : String :=
  String.join (List.replicate n "  ")

/-- The outcome of one promise: the state after its side effects together
with resolution (`Except.ok`) or rejection (`Except.error`). -/
abbrev Outcome := OutState × Except JsError Unit

/-- A section/check body: runs from a state to an outcome. -/
abbrev TestBody := OutState → Outcome

namespace FormatTestOutput

/-- `indent()`: the current indentation prefix. -/
def indent (s : OutState) : String :=
  indentOf s.indentation

/-- Replace every newline character of `msg` by a newline followed by `pre`.
Because the replaced pattern is the single character `\n`, the global string
replacement `msg.replace(/\n/g, "\n" + pre)` is exactly this character-wise
map. -/
def replaceNewlines (pre : String) (msg : String) : String :=
  String.join (msg.data.map fun c =>
    if c = '\n' then "\n" ++ pre else String.singleton c)

/-- `indentLines(msg)`: `this.indent() + msg.replace(/\n/g,
"\n" + this.indent())`. -/
def indentLines (s : OutState) (msg : String) : String :=
  indent s ++ replaceNewlines (indent s) msg

/-- The state after `section`'s entry sequence: a blank line, the header line
(color cosmetics dropped), a blank line, then `++this.indentation`. -/
def sectionEntry (name : String) (s : OutState) : OutState :=
  let s1 := logLine s ""
  let s2 := logLine s1 (indent s1 ++ name)
  let s3 := logLine s2 ""
  { s3 with indentation := s3.indentation + 1 }

/-- `section(name, contents)`: logs the header, increments `indentation`,
runs `contents`, absorbs any rejection (logging the section-error warning and
the error's printed form) and finally decrements `indentation`; the returned
promise never rejects. -/
def runSection (name : String) (contents : TestBody) (s : OutState) : Outcome :=
  match contents (sectionEntry name s) with
  | (s5, .ok _) => ({ s5 with indentation := s5.indentation - 1 }, .ok ())
  | (s5, .error err) =>
    let s6 := logLine s5 ("Encountered error in section " ++ name ++ ".")
    let s7 := logLine s6 err.detail
    ({ s7 with indentation := s7.indentation - 1 }, .ok ())

/-- `it(name, contents)`: runs `contents`; on resolution logs the success
marker; on rejection emits the error event, logs the failure marker, logs the
error's printed form one indentation level deeper (restoring the level), and
re-throws the same error. -/
def it (name : String) (contents : TestBody) (s : OutState) : Outcome :=
  match contents s with
  | (s1, .ok _) => (logLine s1 (indent s1 ++ "✓   " ++ name), .ok ())
  | (s1, .error err) =>
    let s2 := emit s1 err
    let s3 := logLine s2 (indent s2 ++ "✗   " ++ name)
    let s4 := { s3 with indentation := s3.indentation + 1 }
    let s5 := logLine s4 (indentLines s4 err.detail)
    let s6 := { s5 with indentation := s5.indentation - 1 }
    (s6, .error err)

/-- `allowAssertion(err, cb)`: re-throws anything whose `name` is not
`"AssertionError"`; otherwise optionally runs the caller-supplied reporting
callback between `++this.indentation` and `--this.indentation` and resolves
with `true`.  The callback is a side-effect reporter (it writes output), so it
is embedded as a state transformer.  The curried `allowAssertion(cb)` overload
is the same function partially applied. -/
def allowAssertion (err : JsError) (cb : Option (JsError → OutState → OutState))
    (s : OutState) : Outcome :=
  if err.name ≠ "AssertionError" then (s, .error err)
  else
    match cb with
    | none => (s, .ok ())
    | some f =>
      let s1 := { s with indentation := s.indentation + 1 }
      let s2 := f err s1
      ({ s2 with indentation := s2.indentation - 1 }, .ok ())

/-- `startBypass(code)`'s returned handler: for a non-`AssertionError` it
warns (`"Refusing to bypass non-AssertionError"`), prints the error
(`console.error(err)`), and re-throws it; for an `AssertionError` it throws
`new Bypass(code)`. -/
def startBypass (code : String) (err : JsError) (s : OutState) : Outcome :=
  if err.name ≠ "AssertionError" then
    let s1 := logLine s "Refusing to bypass non-AssertionError"
    let s2 := logLine s1 err.detail
    (s2, .error err)
  else
    (s, .error (Bypass code))

/-- `resumeBypass(code)`'s returned handler: re-throws unless the error's
`name` is `"Bypass"` and its `code` equals the given code; on a match it
resolves with `true`. -/
def resumeBypass (code : String) (err : JsError) (s : OutState) : Outcome :=
  if err.name ≠ "Bypass" ∨ err.code ≠ some code then (s, .error err)
  else (s, .ok ())

end FormatTestOutput

/-- Promise `.then(f)` on an already-produced outcome: the continuation runs
only when the outcome resolved; a rejection skips it and propagates. -/
def pThen (p : Outcome) (f : TestBody) : Outcome :=
  match p with
  | (s, .ok _) => f s
  | (s, .error e) => (s, .error e)

/-- Promise `.catch(h)` on an already-produced outcome: the handler runs only
when the outcome rejected; a resolution passes through. -/
def pCatch (p : Outcome) (h : JsError → OutState → Outcome) : Outcome :=
  match p with
  | (s, .ok u) => (s, .ok u)
  | (s, .error e) => h e s

/-- A tower of nested `runSection` calls wrapped around an innermost body. -/
def nest (names : List String) (inner : TestBody) : TestBody :=
  match names with
  | [] => inner
  | nm :: rest => fun s => FormatTestOutput.runSection nm (nest rest inner) s

/-- Deterministic schedule of the externally supplied probe (the SSH
command): whether the `n`-th probe invocation succeeds, and how long it takes
before settling (for `ensureStarted` the probe is `promiseTimeout(ssh(...),
sshTimeout)`, so a hung connection settles as a failure after `sshTimeout`;
that bound is folded into `probeDuration`).  Indexing attempts by their
ordinal is equivalent to indexing by wall-clock time because the scheduling
is single-threaded and deterministic. -/
structure PollEnv where
  probe : Nat → Bool
  probeDuration : Nat → Nat

namespace TestMachine

/-- `TestMachine#ensureStarted(timeout, started, failures)`: wall-clock times
are naturals (milliseconds); `started` is the time of the first entry, `now`
the time at the current entry, `failures` the count of failed probes so far
(`0` at the first entry).  At each entry: if `now - started > timeout`,
throws the `TestError` citing the timeout and `failures`; otherwise runs the
probe, and on success resolves (logging the elapsed time, returned here as
the `.ok` payload), on failure sleeps `100` ms and recurses with `failures`
incremented.  The second component of the result counts the probe
invocations actually made (instrumentation only — it mirrors `failures`
plus the final successful probe and does not affect control flow). -/
def ensureStarted (env : PollEnv) (timeout started now failures : Nat) :
    Except JsError Nat × Nat :=
  if now - started > timeout then
    (.error (TestError ("Machine has not responded to SSH in " ++ toString timeout ++
      "ms (Attempted " ++ toString failures ++ " connections)")), failures)
  else
    if env.probe failures then
      (.ok (now + env.probeDuration failures - started), failures + 1)
    else
      ensureStarted env timeout started (now + env.probeDuration failures + 100) (failures + 1)
termination_by timeout + started + 1 - now
decreasing_by omega

/-- `TestMachine#ensureServiceStarted(service, timeout, started)`: same
deadline discipline as `ensureStarted`, but the probe is
`ssh("systemctl is-active " + service)` and the source keeps no failure
counter — the thrown `TestError` cites only the service and the timeout.
The `attempt` argument and the second component of the result are
instrumentation counting probe invocations (the source has no such
parameter); they do not affect control flow. -/
def ensureServiceStarted (env : PollEnv) (service : String)
    (timeout started now attempt : Nat) : Except JsError Unit × Nat :=
  if now - started > timeout then
    (.error (TestError ("Service " ++ service ++ " has not started after " ++
      toString timeout ++ "ms.")), attempt)
  else
    if env.probe attempt then
      (.ok (), attempt + 1)
    else
      ensureServiceStarted env service timeout started (now + env.probeDuration attempt + 100) (attempt + 1)
termination_by timeout + started + 1 - now
decreasing_by omega

end TestMachine

/-- The state of a freshly constructed `FormatTestOutput`
(`this.indentation = 0`, nothing printed, nothing emitted). -/
def FormatTestOutput.init : OutState :=
  { indentation := 0, log := [], emitted := [] }

/-- A sample assertion failure, as an assertion library would throw it. -/
def assertionExample : JsError :=
  { name := "AssertionError", detail := "expected 1 to equal 2" }

/-- A check body that always rejects with `assertionExample`. -/
def failingCheckBody : TestBody := fun s => (s, Except.error assertionExample)

/-- A check body that logs a sentinel line and resolves. -/
def sentinelBody : TestBody := fun s => (logLine s "sentinel body ran", Except.ok ())

/-- A probe that never succeeds, each attempt settling instantly. -/
def alwaysFailFast : PollEnv := ⟨fun _ => false, fun _ => 0⟩

/-- A probe that never succeeds, each attempt settling after 300 ms. -/
def alwaysFailSlow : PollEnv := ⟨fun _ => false, fun _ => 300⟩

/-- A probe that fails its first `k` attempts and then succeeds, each attempt
settling instantly. -/
def failFirstK (k : Nat) : PollEnv := ⟨fun n => decide (k ≤ n), fun _ => 0⟩

/-- `logLine` only appends to the log; the indentation field is untouched. -/
theorem logLine_indentation (s : OutState) (m : String) :
    (logLine s m).indentation = s.indentation := rfl

/-- `emit` only appends to the event list; the indentation field is
untouched. -/
theorem emit_indentation (s : OutState) (e : JsError) :
    (emit s e).indentation = s.indentation := rfl

/-- Entering a section raises the indentation by exactly one. -/
theorem sectionEntry_indentation (name : String) (s : OutState) :
    (FormatTestOutput.sectionEntry name s).indentation = s.indentation + 1 := rfl

/-- One `runSection` call restores the indentation of any depth-preserving
body, on both the resolving and the rejecting path. -/
theorem runSection_indentation (name : String) (b : TestBody)
    (hb : ∀ s, ((b s).1).indentation = s.indentation) (s : OutState) :
    ((FormatTestOutput.runSection name b s).1).indentation = s.indentation := by
  have h := hb (FormatTestOutput.sectionEntry name s)
  rcases hbs : b (FormatTestOutput.sectionEntry name s) with ⟨s5, r⟩
  rw [hbs] at h
  simp only [sectionEntry_indentation] at h
  cases r <;>
    simp [FormatTestOutput.runSection, hbs, logLine] <;> omega

/-- C1.  For every check name `n` and body `b` that fails with an
AssertionFailure `f`, `runCheck(n, b)` (source: `FormatTestOutput#it`)
appends to the body's output exactly one failure-marker line containing `n`
and one line with `f`'s detail indented one level deeper than the marker
(the marker sits at the body's final indentation, the detail at that
indentation plus one), emits `f` to the failure observer, restores the
indentation, and re-raises the very same signal `f` (identity-preserving
propagation) rather than absorbing it.  The final conjunct exhibits the
failure line as a string containing `n`. -/
theorem runCheck_assertion_failure_logs_and_reraises (n : String) (b : TestBody)
    (s s1 : OutState) (f : JsError) (hb : b s = (s1, Except.error f))
    (hf : f.name = "AssertionError") :
    FormatTestOutput.it n b s =
      ({ s1 with
          emitted := s1.emitted ++ [f],
          log := s1.log ++ [indentOf s1.indentation ++ "✗   " ++ n,
            indentOf (s1.indentation + 1) ++
              FormatTestOutput.replaceNewlines (indentOf (s1.indentation + 1))
                f.detail] },
        Except.error f) ∧
    ∃ pre post, indentOf s1.indentation ++ "✗   " ++ n = pre ++ n ++ post := by
  constructor
  · simp [FormatTestOutput.it, hb, emit, logLine, FormatTestOutput.indent,
      FormatTestOutput.indentLines]
  · exact ⟨indentOf s1.indentation ++ "✗   ", "", by simp [String.append_assoc]⟩

/-- Witness for C1 at a concrete check. -/
theorem runCheck_assertion_failure_logs_and_reraises_witness :
    FormatTestOutput.it "adds numbers" failingCheckBody FormatTestOutput.init =
      ({ FormatTestOutput.init with
          emitted := [assertionExample],
          log := ["✗   adds numbers", "  expected 1 to equal 2"] },
        Except.error assertionExample) := by
  have h := runCheck_assertion_failure_logs_and_reraises "adds numbers"
    failingCheckBody FormatTestOutput.init FormatTestOutput.init assertionExample
    rfl rfl
  rw [h.1]
  rfl

/-- C3.  `runSection(name, body)` (source: `FormatTestOutput#section`) never
itself returns a rejected outcome: whatever Control Signal escapes the body —
AssertionFailure, BypassSignal or FatalFailure alike — is absorbed, the
section-error warning and the signal's detail are logged, and the call
resolves, so a failing section does not abort sibling sections run afterward
by the same caller. -/
theorem runSection_absorbs_all_failures (name : String) (b : TestBody) (s : OutState) :
    (FormatTestOutput.runSection name b s).2 = Except.ok () ∧
    (∀ s5 e, b (FormatTestOutput.sectionEntry name s) = (s5, Except.error e) →
      (FormatTestOutput.runSection name b s).1 =
        { s5 with
            indentation := s5.indentation - 1,
            log := s5.log ++ ["Encountered error in section " ++ name ++ ".",
              e.detail] }) := by
  constructor
  · rcases hbs : b (FormatTestOutput.sectionEntry name s) with ⟨s5, r⟩
    cases r <;> simp [FormatTestOutput.runSection, hbs]
  · intro s5 e h
    simp [FormatTestOutput.runSection, h, logLine]

/-- Witness for C3 at a concrete section whose body rejects with a
FatalFailure. -/
theorem runSection_absorbs_all_failures_witness :
    (FormatTestOutput.runSection "Directory Existence"
        (fun s => (s, Except.error (TestError "infra broke"))) FormatTestOutput.init).2 =
      Except.ok () ∧
    (FormatTestOutput.runSection "Directory Existence"
        (fun s => (s, Except.error (TestError "infra broke"))) FormatTestOutput.init).1 =
      { indentation := 0,
        log := ["", "Directory Existence", "",
          "Encountered error in section Directory Existence.", "infra broke"],
        emitted := [] } := by
  have h := runSection_absorbs_all_failures "Directory Existence"
    (fun s => (s, Except.error (TestError "infra broke"))) FormatTestOutput.init
  refine ⟨h.1, ?_⟩
  rw [h.2 (FormatTestOutput.sectionEntry "Directory Existence" FormatTestOutput.init)
    (TestError "infra broke") rfl]
  rfl

/-- C4.  Nesting-depth invariant: for any tower of nested `runSection` calls
around a depth-preserving innermost body (which may reject — a body rejecting
at its entry depth qualifies), the indentation after the outermost call
returns equals the indentation before it was called: the increment on section
entry is matched by exactly one decrement on section exit on every path. -/
theorem nested_runSection_depth_invariant (names : List String) (inner : TestBody)
    (hinner : ∀ s, ((inner s).1).indentation = s.indentation) (s : OutState) :
    ((nest names inner s).1).indentation = s.indentation := by
  induction names generalizing s with
  | nil => exact hinner s
  | cons nm rest ih =>
    exact runSection_indentation nm (nest rest inner) (fun t => ih t) s

/-- Witness for C4: two nested sections around a body that fails with an
assertion; the depth is restored to its initial value. -/
theorem nested_runSection_depth_invariant_witness :
    ((nest ["Directory Existence", "Root User"] failingCheckBody
        FormatTestOutput.init).1).indentation = FormatTestOutput.init.indentation :=
  nested_runSection_depth_invariant ["Directory Existence", "Root User"]
    failingCheckBody (fun _ => rfl) FormatTestOutput.init

/-- C9.  `runCheck` (source: `FormatTestOutput#it`) leaves the indentation
unchanged on every path for any depth-preserving body: on resolution the
counter is never touched, and on rejection the temporary increment used to
indent the failure trace is decremented again before the signal is
re-raised. -/
theorem runCheck_depth_invariant (n : String) (b : TestBody)
    (hb : ∀ s, ((b s).1).indentation = s.indentation) (s : OutState) :
    ((FormatTestOutput.it n b s).1).indentation = s.indentation := by
  have h := hb s
  rcases hbs : b s with ⟨s1, r⟩
  rw [hbs] at h
  simp only [] at h
  cases r <;>
    simp [FormatTestOutput.it, hbs, logLine, emit] <;> omega

/-- Witness for C9: a failing check at a concrete state; the depth is
restored. -/
theorem runCheck_depth_invariant_witness :
    ((FormatTestOutput.it "adds numbers" failingCheckBody
        FormatTestOutput.init).1).indentation = FormatTestOutput.init.indentation :=
  runCheck_depth_invariant "adds numbers" failingCheckBody (fun _ => rfl)
    FormatTestOutput.init

/-- C2.  Bypass round-trip: the handler of `startBypass(code)` applied to an
AssertionFailure, chained through an arbitrary intervening check body `b`
(which is skipped: the result does not depend on `b` and the state is passed
through untouched), then through the handler of `resumeBypass(code)`, yields
a resolved outcome.  And for `otherCode ≠ code`, `startBypass(otherCode)`
turns the AssertionFailure into `Bypass otherCode`, which the
`resumeBypass(code)` handler re-raises unchanged rather than resolving. -/
theorem bypass_round_trip (code otherCode : String) (f : JsError)
    (hf : f.name = "AssertionError") (hne : otherCode ≠ code) (s : OutState)
    (b : TestBody) :
    pCatch (pThen (pCatch (s, Except.error f) (FormatTestOutput.startBypass code)) b)
        (FormatTestOutput.resumeBypass code) = (s, Except.ok ()) ∧
    FormatTestOutput.startBypass otherCode f s = (s, Except.error (Bypass otherCode)) ∧
    FormatTestOutput.resumeBypass code (Bypass otherCode) s =
      (s, Except.error (Bypass otherCode)) := by
  refine ⟨?_, ?_, ?_⟩
  · simp [pCatch, pThen, FormatTestOutput.startBypass,
      FormatTestOutput.resumeBypass, hf, Bypass]
  · simp [FormatTestOutput.startBypass, hf]
  · simp [FormatTestOutput.resumeBypass, Bypass, hne]

/-- Witness for C2 with codes `"no-text"` / `"few-words"` and a sentinel
intervening body. -/
theorem bypass_round_trip_witness :
    pCatch (pThen (pCatch (FormatTestOutput.init, Except.error assertionExample)
          (FormatTestOutput.startBypass "few-words")) sentinelBody)
        (FormatTestOutput.resumeBypass "few-words") =
      (FormatTestOutput.init, Except.ok ()) ∧
    FormatTestOutput.resumeBypass "few-words" (Bypass "no-text") FormatTestOutput.init =
      (FormatTestOutput.init, Except.error (Bypass "no-text")) := by
  have h := bypass_round_trip "few-words" "no-text" assertionExample rfl
    (by decide) FormatTestOutput.init sentinelBody
  exact ⟨h.1, h.2.2⟩

/-- C5.  The handler of `startBypass(code)` raises `Bypass code` exactly when
the incoming signal is an AssertionFailure; any other kind — a FatalFailure
such as a `TestError`, or an already-active `Bypass` (whose `name` is
`"Bypass"`, not `"AssertionError"`) — is re-raised unchanged after the
fatal-path warning and the error itself are logged.  So a BypassSignal is
only ever created from an AssertionFailure. -/
theorem startBypass_classification (code : String) (e : JsError) (s : OutState) :
    (e.name = "AssertionError" →
      FormatTestOutput.startBypass code e s = (s, Except.error (Bypass code))) ∧
    (e.name ≠ "AssertionError" →
      FormatTestOutput.startBypass code e s =
        (logLine (logLine s "Refusing to bypass non-AssertionError") e.detail,
          Except.error e)) := by
  constructor <;> intro h <;> simp [FormatTestOutput.startBypass, h]

/-- Witness for C5: an already-active bypass signal is refused and re-raised
unchanged, with the warning logged. -/
theorem startBypass_classification_witness :
    FormatTestOutput.startBypass "few-words" (Bypass "no-text") FormatTestOutput.init =
      (logLine (logLine FormatTestOutput.init "Refusing to bypass non-AssertionError")
        (Bypass "no-text").detail, Except.error (Bypass "no-text")) :=
  (startBypass_classification "few-words" (Bypass "no-text")
    FormatTestOutput.init).2 (by decide)

/-- C6.  `allowAssertion(signal, cb?)` resolves exactly when the signal is an
AssertionFailure; every other kind — FatalFailure or BypassSignal — is
re-raised unchanged with no side effect.  When a callback is supplied and the
signal is an AssertionFailure, the callback runs at one extra indentation
level (incremented before, decremented after). -/
theorem allowAssertion_classification (e : JsError)
    (cb : Option (JsError → OutState → OutState)) (s : OutState) :
    ((FormatTestOutput.allowAssertion e cb s).2 = Except.ok () ↔
      e.name = "AssertionError") ∧
    (e.name ≠ "AssertionError" →
      FormatTestOutput.allowAssertion e cb s = (s, Except.error e)) ∧
    (∀ f, e.name = "AssertionError" →
      FormatTestOutput.allowAssertion e (some f) s =
        ({ f e { s with indentation := s.indentation + 1 } with
            indentation :=
              (f e { s with indentation := s.indentation + 1 }).indentation - 1 },
          Except.ok ())) := by
  by_cases h : e.name = "AssertionError"
  · refine ⟨?_, fun hc => absurd h hc, fun f _ => ?_⟩
    · cases cb <;> simp [FormatTestOutput.allowAssertion, h]
    · simp [FormatTestOutput.allowAssertion, h]
  · refine ⟨?_, fun _ => ?_, fun f hc => absurd hc h⟩
    · simp [FormatTestOutput.allowAssertion, h]
    · simp [FormatTestOutput.allowAssertion, h]

/-- Witness for C6: a BypassSignal is re-raised unchanged, and the same
assertion failure is absorbed. -/
theorem allowAssertion_classification_witness :
    FormatTestOutput.allowAssertion (Bypass "no-text") none FormatTestOutput.init =
      (FormatTestOutput.init, Except.error (Bypass "no-text")) ∧
    (FormatTestOutput.allowAssertion assertionExample none FormatTestOutput.init).2 =
      Except.ok () := by
  constructor
  · exact (allowAssertion_classification (Bypass "no-text") none
      FormatTestOutput.init).2.1 (by decide)
  · exact (allowAssertion_classification assertionExample none
      FormatTestOutput.init).1.mpr rfl

/-- The probe-invocation counter of `ensureStarted` never decreases below the
`failures` value it starts from. -/
theorem ensureStarted_attempts_le (env : PollEnv) (t st now f : Nat) :
    f ≤ (TestMachine.ensureStarted env t st now f).2 := by
  rw [TestMachine.ensureStarted.eq_def]
  split
  · simp
  · split
    · simp
    · have := ensureStarted_attempts_le env t st (now + env.probeDuration f + 100) (f + 1)
      omega
termination_by t + st + 1 - now
decreasing_by omega

/-- The probe-invocation counter of `ensureServiceStarted` never decreases
below the `attempt` value it starts from. -/
theorem ensureServiceStarted_attempts_le (env : PollEnv) (service : String)
    (t st now a : Nat) :
    a ≤ (TestMachine.ensureServiceStarted env service t st now a).2 := by
  rw [TestMachine.ensureServiceStarted.eq_def]
  split
  · simp
  · split
    · simp
    · have := ensureServiceStarted_attempts_le env service t st
        (now + env.probeDuration a + 100) (a + 1)
      omega
termination_by t + st + 1 - now
decreasing_by omega

/-- Whenever `ensureStarted` ends fatally having made `p` probes, the
`TestError`'s message cites the timeout and exactly `p`. -/
theorem ensureStarted_fatal_detail (env : PollEnv) (t st now f : Nat)
    (e : JsError) (p : Nat)
    (h : TestMachine.ensureStarted env t st now f = (Except.error e, p)) :
    e.detail = "Machine has not responded to SSH in " ++ toString t ++
      "ms (Attempted " ++ toString p ++ " connections)" := by
  rw [TestMachine.ensureStarted.eq_def] at h
  split at h
  · simp only [Prod.mk.injEq, Except.error.injEq] at h
    obtain ⟨h1, h2⟩ := h
    subst h2
    rw [← h1]
    rfl
  · split at h
    · simp at h
    · exact ensureStarted_fatal_detail env t st (now + env.probeDuration f + 100)
        (f + 1) e p h
termination_by t + st + 1 - now
decreasing_by omega

/-- Whenever `ensureServiceStarted` ends fatally, the `TestError`'s message
cites the service and the timeout — and nothing else: it is the same string
for every attempt count. -/
theorem ensureServiceStarted_fatal_detail (env : PollEnv) (service : String)
    (t st now a : Nat) (e : JsError) (p : Nat)
    (h : TestMachine.ensureServiceStarted env service t st now a = (Except.error e, p)) :
    e.detail = "Service " ++ service ++ " has not started after " ++
      toString t ++ "ms." := by
  rw [TestMachine.ensureServiceStarted.eq_def] at h
  split at h
  · simp only [Prod.mk.injEq, Except.error.injEq] at h
    obtain ⟨h1, h2⟩ := h
    rw [← h1]
    rfl
  · split at h
    · simp at h
    · exact ensureServiceStarted_fatal_detail env service t st
        (now + env.probeDuration a + 100) (a + 1) e p h
termination_by t + st + 1 - now
decreasing_by omega

/-- C7 counterexample: `ensureServiceStarted`'s fatal message does not
include the number of probe attempts made.  Two concrete runs with the same
service and timeout make 3 and 1 probe attempts respectively, yet fail with
the very same `TestError`, whose message cites only the service and the
timeout. -/
theorem ensureServiceStarted_message_omits_attempt_count :
    (TestMachine.ensureServiceStarted alwaysFailFast "myservice" 250 0 0 0).2 = 3 ∧
    (TestMachine.ensureServiceStarted alwaysFailSlow "myservice" 250 0 0 0).2 = 1 ∧
    (TestMachine.ensureServiceStarted alwaysFailFast "myservice" 250 0 0 0).1 =
      Except.error (TestError "Service myservice has not started after 250ms.") ∧
    (TestMachine.ensureServiceStarted alwaysFailSlow "myservice" 250 0 0 0).1 =
      (TestMachine.ensureServiceStarted alwaysFailFast "myservice" 250 0 0 0).1 := by
  refine ⟨?_, ?_, ?_, ?_⟩ <;>
    simp [TestMachine.ensureServiceStarted, alwaysFailFast, alwaysFailSlow,
      TestError] <;> rfl

/-- C7 (amended).  When polling fails fatally after the deadline,
`ensureStarted`'s failure message includes both the timeout value and the
number of probe attempts actually made; `ensureServiceStarted`'s failure
message includes the service name and the timeout value but not the attempt
count (it is the same string whatever the attempt count). -/
theorem poller_fatal_message_contents (env : PollEnv) (service : String)
    (t st now f : Nat) :
    (∀ e p, TestMachine.ensureStarted env t st now f = (Except.error e, p) →
      e.detail = "Machine has not responded to SSH in " ++ toString t ++
        "ms (Attempted " ++ toString p ++ " connections)") ∧
    (∀ e p, TestMachine.ensureServiceStarted env service t st now f = (Except.error e, p) →
      e.detail = "Service " ++ service ++ " has not started after " ++
        toString t ++ "ms.") :=
  ⟨fun e p h => ensureStarted_fatal_detail env t st now f e p h,
   fun e p h => ensureServiceStarted_fatal_detail env service t st now f e p h⟩

/-- Witness for C7 (amended) at a timed-out concrete run of `ensureStarted`
that made 3 probes. -/
theorem poller_fatal_message_contents_witness :
    (TestError "Machine has not responded to SSH in 250ms (Attempted 3 connections)").detail =
      "Machine has not responded to SSH in " ++ toString 250 ++
        "ms (Attempted " ++ toString 3 ++ " connections)" :=
  (poller_fatal_message_contents alwaysFailFast "myservice" 250 0 0 0).1
    (TestError "Machine has not responded to SSH in 250ms (Attempted 3 connections)") 3
    (by simp [TestMachine.ensureStarted, alwaysFailFast, TestError]; rfl)

/-- Against the probe failing its first `k` attempts, a run entered at
attempt `j ≤ k` and elapsed time `j * 100` (each failed attempt so far cost
one 100 ms backoff) succeeds at attempt `k` having made `k + 1` probes in
all. -/
theorem ensureStarted_failFirstK_aux (k t : Nat) (hk : k * 100 < t) :
    ∀ d j, j ≤ k → k - j = d →
      TestMachine.ensureStarted (failFirstK k) t 0 (j * 100) j =
        (Except.ok (k * 100), k + 1) := by
  intro d
  induction d with
  | zero =>
    intro j hj hd
    have hjk : j = k := by omega
    subst hjk
    rw [TestMachine.ensureStarted.eq_def]
    have h1 : ¬ (j * 100 - 0 > t) := by omega
    rw [if_neg h1]
    have h2 : (failFirstK j).probe j = true := by simp [failFirstK]
    rw [if_pos h2]
    simp [failFirstK]
  | succ d ih =>
    intro j hj hd
    have hjk : j < k := by omega
    rw [TestMachine.ensureStarted.eq_def]
    have h1 : ¬ (j * 100 - 0 > t) := by omega
    rw [if_neg h1]
    have h2 : ¬ ((failFirstK k).probe j = true) := by
      simp [failFirstK]
      omega
    rw [if_neg h2]
    have h3 : j * 100 + (failFirstK k).probeDuration j + 100 = (j + 1) * 100 := by
      simp [failFirstK]
      ring
    rw [h3]
    exact ih (j + 1) (by omega) (by omega)

/-- Against a never-succeeding probe, a run entered at attempt `j` and
elapsed time `j * 100` ends fatally at attempt `t / 100 + 1`, the first whose
elapsed time strictly exceeds the timeout. -/
theorem ensureStarted_allFail_aux (t : Nat) :
    ∀ d j, t / 100 + 1 - j = d → j ≤ t / 100 + 1 →
      TestMachine.ensureStarted alwaysFailFast t 0 (j * 100) j =
        (Except.error (TestError ("Machine has not responded to SSH in " ++
          toString t ++ "ms (Attempted " ++ toString (t / 100 + 1) ++
          " connections)")), t / 100 + 1) := by
  intro d
  induction d with
  | zero =>
    intro j hd hj
    have hjN : j = t / 100 + 1 := by omega
    subst hjN
    rw [TestMachine.ensureStarted.eq_def]
    have h1 : (t / 100 + 1) * 100 - 0 > t := by omega
    rw [if_pos h1]
  | succ d ih =>
    intro j hd hj
    rw [TestMachine.ensureStarted.eq_def]
    have h1 : ¬ (j * 100 - 0 > t) := by omega
    rw [if_neg h1]
    have h2 : ¬ (alwaysFailFast.probe j = true) := by simp [alwaysFailFast]
    rw [if_neg h2]
    have h3 : j * 100 + alwaysFailFast.probeDuration j + 100 = (j + 1) * 100 := by
      simp [alwaysFailFast]
      ring
    rw [h3]
    exact ih (j + 1) (by omega) (by omega)

/-- C8.  With the fixed 100 ms backoff between failed attempts (and probes
settling instantly): against a probe that fails its first `k` attempts and
then succeeds, with `k * 100 < timeout`, the poller completes successfully
(reporting elapsed time `k * 100`) having made exactly `k + 1` probe
attempts; against a probe that always fails, the poller stops retrying and
fails fatally at the first attempt whose elapsed time `(t / 100 + 1) * 100`
strictly exceeds the timeout, citing the timeout and the attempt count. -/
theorem poller_retry_and_deadline (k t : Nat) (hk : k * 100 < t) :
    TestMachine.ensureStarted (failFirstK k) t 0 0 0 =
      (Except.ok (k * 100), k + 1) ∧
    TestMachine.ensureStarted alwaysFailFast t 0 0 0 =
      (Except.error (TestError ("Machine has not responded to SSH in " ++
        toString t ++ "ms (Attempted " ++ toString (t / 100 + 1) ++
        " connections)")), t / 100 + 1) := by
  constructor
  · have h := ensureStarted_failFirstK_aux k t hk k 0 (Nat.zero_le k) rfl
    simpa using h
  · have h := ensureStarted_allFail_aux t (t / 100 + 1) 0 (by omega) (by omega)
    simpa using h

/-- Witness for C8 with `k = 2` failures and a 250 ms timeout: success after
3 probes at 200 ms elapsed, and the always-failing probe dies after 3 probes
with the message citing both numbers. -/
theorem poller_retry_and_deadline_witness :
    TestMachine.ensureStarted (failFirstK 2) 250 0 0 0 = (Except.ok 200, 3) ∧
    TestMachine.ensureStarted alwaysFailFast 250 0 0 0 =
      (Except.error (TestError ("Machine has not responded to SSH in " ++
        toString 250 ++ "ms (Attempted " ++ toString (250 / 100 + 1) ++
        " connections)")), 250 / 100 + 1) := by
  have h := poller_retry_and_deadline 2 250 (by decide)
  constructor
  · rw [h.1]
  · rw [h.2]

/-- C10.  On the first invocation of either poller (`started` just set to the
current time, so elapsed time is zero), the strict deadline test
`now - started > timeout` is false for every timeout, hence the fatal branch
is unreachable before the probe has run: both pollers make at least one probe
attempt on every run that begins at its start time. -/
theorem probe_invoked_before_fatal (env : PollEnv) (service : String)
    (t st : Nat) :
    1 ≤ (TestMachine.ensureStarted env t st st 0).2 ∧
    1 ≤ (TestMachine.ensureServiceStarted env service t st st 0).2 := by
  constructor
  · rw [TestMachine.ensureStarted.eq_def]
    have h1 : ¬ (st - st > t) := by omega
    rw [if_neg h1]
    by_cases h2 : env.probe 0 = true
    · rw [if_pos h2]
    · rw [if_neg h2]
      have := ensureStarted_attempts_le env t st (st + env.probeDuration 0 + 100) (0 + 1)
      omega
  · rw [TestMachine.ensureServiceStarted.eq_def]
    have h1 : ¬ (st - st > t) := by omega
    rw [if_neg h1]
    by_cases h2 : env.probe 0 = true
    · rw [if_pos h2]
    · rw [if_neg h2]
      have := ensureServiceStarted_attempts_le env service t st
        (st + env.probeDuration 0 + 100) (0 + 1)
      omega

end CloudMachineTesting
